import Mathlib

/-
Verification of the LangSmith cookbook notebook
src/tracing-examples/traceable/tracing_without_langchain.ipynb.

The notebook defines a small chat application: three prompt-building
functions (argument_generator, critic, refiner) that each call a shared
call_openai function, composed by argument_chain / argument_chain2 /
argument_chain_3, all decorated with the langsmith @traceable decorator.
We embed the notebook shallowly: the external world (the chat-completion
API, the wall clock read by datetime.now(), the run-id supply of the
tracing SDK) is an explicit environment, and each notebook function is a
state-passing computation that records the chat requests it issues, the
runs the decorator creates, and the client calls made by the notebook
cells.
-/

namespace TracingNotebook

/-- A chat message: a role label and a content string. -/
structure Message where
  role : String
  content : String
deriving DecidableEq

/-- A request passed to openai.ChatCompletion.create: the model name, the
ordered message list and the sampling temperature. -/
structure ChatRequest where
  model : String
  messages : List Message
  temperature : Rat
deriving DecidableEq

/-- The message object inside one choice of a chat-completion response. -/
structure ChoiceMessage where
  content : String
deriving DecidableEq

/-- One choice of a chat-completion response. -/
structure Choice where
  message : ChoiceMessage
deriving DecidableEq

/-- A chat-completion response: a list of choices; call_openai reads
choices[0].message.content. -/
structure ChatResponse where
  choices : List Choice
deriving DecidableEq

/-- A metadata value: the notebook uses both string values (githash) and
integer values (another-key). -/
inductive MetaVal where
  | str (s : String)
  | num (n : Nat)
deriving DecidableEq

/-- An error surfacing to the notebook code: an error raised by the
external chat-completion SDK, or the IndexError Python would raise when
choices[0] is read from an empty choices list. -/
inductive RunError where
  | apiError (msg : String)
  | indexError
deriving DecidableEq

/-- The run tree object the @traceable decorator injects into functions
that declare a run_tree parameter; the notebook only reads its id. -/
structure RunTree where
  id : Nat
deriving DecidableEq

/-- The static configuration given to the @traceable decorator at
decoration time: run_type, and optionally a custom trace name, tags and
metadata. -/
structure TraceConfig where
  run_type : String
  traceName : Option String
  tags : List String
  metadata : List (String × MetaVal)
deriving DecidableEq

/-- The langsmith_extra argument a caller may pass to a decorated
function: extra tags, extra metadata, and an optional requested run id. -/
structure LangsmithExtra where
  tags : List String
  metadata : List (String × MetaVal)
  run_id : Option Nat
deriving DecidableEq

/-- One run recorded by the @traceable decorator: the run id and the
decoration data, with any langsmith_extra tags and metadata merged in. -/
structure RunEntry where
  id : Nat
  run_type : String
  traceName : Option String
  tags : List String
  metadata : List (String × MetaVal)
deriving DecidableEq

/-- One client.create_feedback call made by a notebook cell: the run id it
was given, the feedback key, the numeric score, and the optional
correction and source_info mappings. -/
structure FeedbackCall where
  run_id : Nat
  key : String
  score : Rat
  correction : Option (List (String × MetaVal))
  source_info : Option (List (String × MetaVal))
deriving DecidableEq

/-- The external world: the chat-completion API (which may raise), the
stream of datetime.now() readings, the tracing SDK's supply of fresh run
ids, and the public links client.share_run produces. -/
structure Env where
  api : ChatRequest → Except RunError ChatResponse
  clock : Nat → String
  idSupply : Nat → Nat
  shareUrl : Nat → String

/-- The observable state threaded through a notebook execution: how many
datetime.now() readings and fresh run ids were consumed, the chat
requests issued to the external API in order, the runs recorded by the
decorator in order, and the client.create_feedback / client.share_run
calls made by the cells. -/
structure St where
  clockTick : Nat
  idTick : Nat
  log : List ChatRequest
  runs : List RunEntry
  feedbackCalls : List FeedbackCall
  shareCalls : List Nat

/-- A notebook computation: reads the environment, threads the state, and
either returns a value or propagates a RunError. State already produced
(requests sent, runs recorded) survives an error. -/
def M (α : Type) : Type := Env → St → Except RunError α × St

/-- Return a pure value. -/
def pureM {α : Type} (a : α) : M α := fun _ s => (Except.ok a, s)

/-- Sequence two computations; an error in the first skips the second,
exactly as a raised Python exception would. -/
def bindM {α β : Type} (m : M α) (f : α → M β) : M β := fun env s =>
  match m env s with
  | (Except.ok a, s') => f a env s'
  | (Except.error e, s') => (Except.error e, s')

/-- Read datetime.now(): consumes the next value of the clock stream. -/
def nowM : M String := fun env s =>
  (Except.ok (env.clock s.clockTick), { s with clockTick := s.clockTick + 1 })

/-- Modelled from the spec: the langsmith @traceable decorator, which is
external SDK code not present in this repository. Per the spec and the
notebook prose, each call creates a run tree — using the run id requested
through langsmith_extra when one is passed and a fresh id otherwise —
records the run (run_type, optional custom name, tags and metadata merged
with any langsmith_extra values), injects the run tree into the wrapped
function, and returns the wrapped function's result; errors from the
wrapped function propagate unchanged. -/
def traceable {α : Type} (cfg : TraceConfig) (extra : Option LangsmithExtra)
    (body : RunTree → M α) : M α := fun env s =>
  let extraTags := match extra with
    | some x => x.tags
    | none => []
  let extraMeta := match extra with
    | some x => x.metadata
    | none => []
  match (match extra with | some x => x.run_id | none => none) with
  | some u =>
      body ⟨u⟩ env
        { s with runs := s.runs ++
            [⟨u, cfg.run_type, cfg.traceName, cfg.tags ++ extraTags,
              cfg.metadata ++ extraMeta⟩] }
  | none =>
      body ⟨env.idSupply s.idTick⟩ env
        { s with idTick := s.idTick + 1,
                 runs := s.runs ++
                   [⟨env.idSupply s.idTick, cfg.run_type, cfg.traceName,
                     cfg.tags ++ extraTags, cfg.metadata ++ extraMeta⟩] }

/-- Decoration of call_openai: @traceable(run_type="llm"). -/
def llmCfg : TraceConfig := ⟨"llm", none, [], []⟩

/-- Decoration of the wrapper and chain functions:
@traceable(run_type="chain"). -/
def chainCfg : TraceConfig := ⟨"chain", none, [], []⟩

/-- Decoration of argument_chain_3: @traceable(run_type="chain",
name="My Argument Chain", tags=["tutorial"],
metadata=(githash : e38f04c83)). -/
def chain3Cfg : TraceConfig :=
  ⟨"chain", some "My Argument Chain", ["tutorial"],
   [("githash", MetaVal.str "e38f04c83")]⟩

/-- The undecorated body of call_openai: issues the request built from its
data, model and temperature arguments, and returns
choices[0].message.content of the response. -/
def call_openai_body (data : List Message) (model : String)
    (temperature : Rat) : M String := fun env s =>
  let req : ChatRequest := ⟨model, data, temperature⟩
  let s' : St := { s with log := s.log ++ [req] }
  match env.api req with
  | Except.error e => (Except.error e, s')
  | Except.ok resp =>
    match resp.choices with
    | [] => (Except.error RunError.indexError, s')
    | c :: _ => (Except.ok c.message.content, s')

/-- call_openai(data, model="gpt-3.5-turbo", temperature=0.0), decorated
with @traceable(run_type="llm"). -/
def call_openai (data : List Message)
    (model : String := "gpt-3.5-turbo") (temperature : Rat := 0) :
    M String :=
  traceable llmCfg none (fun _ => call_openai_body data model temperature)

/-- The system prompt shared by argument_generator and refiner, with the
additional_description and the datetime.now() reading interpolated. -/
def genSystem (additional_description ts : String) : String :=
  "You are a debater making an argument on a topic." ++
    additional_description ++ " The current time is " ++ ts

/-- The message list argument_generator builds, given the datetime.now()
reading ts. -/
def genMessages (query additional_description ts : String) : List Message :=
  [⟨"system", genSystem additional_description ts⟩,
   ⟨"user", "The discussion topic is " ++ query⟩]

/-- argument_generator(query, additional_description=""). -/
def argument_generator (query : String)
    (additional_description : String := "") : M String :=
  traceable chainCfg none (fun _ =>
    bindM nowM (fun ts =>
      call_openai (genMessages query additional_description ts)))

/-- The system prompt of critic (three adjacent f-string pieces
concatenated by Python). -/
def criticSystem : String :=
  "You are a critic." ++
    "\nWhat unresolved questions or criticism do you have after reading the following argument?" ++
    "Provide a concise summary of your feedback."

/-- The message list critic builds: its fixed system prompt, then the
argument embedded verbatim as a second system message. -/
def criticMessages (argument : String) : List Message :=
  [⟨"system", criticSystem⟩, ⟨"system", argument⟩]

/-- critic(argument). -/
def critic (argument : String) : M String :=
  traceable chainCfg none (fun _ =>
    call_openai (criticMessages argument))

/-- The message list refiner builds, given the datetime.now() reading ts:
the debater system prompt, the topic as a user message, the current
argument as an assistant message, the criticism as a user message, and a
fixed closing system instruction. -/
def refinerMessages (query additional_description current_arg criticism
    ts : String) : List Message :=
  [⟨"system", genSystem additional_description ts⟩,
   ⟨"user", "The discussion topic is " ++ query⟩,
   ⟨"assistant", current_arg⟩,
   ⟨"user", criticism⟩,
   ⟨"system", "Please generate a new argument that incorporates the feedback from the user."⟩]

/-- refiner(query, additional_description, current_arg, criticism). -/
def refiner (query additional_description current_arg criticism : String) :
    M String :=
  traceable chainCfg none (fun _ =>
    bindM nowM (fun ts =>
      call_openai
        (refinerMessages query additional_description current_arg criticism
          ts)))

/-- argument_chain(query, additional_description=""): generator, then
critic on the argument, then refiner; returns refiner's result. -/
def argument_chain (query : String)
    (additional_description : String := "") : M String :=
  traceable chainCfg none (fun _ =>
    bindM (argument_generator query additional_description) (fun argument =>
      bindM (critic argument) (fun criticism =>
        refiner query additional_description argument criticism)))

/-- argument_chain2(query, *, additional_description="", run_tree): the
same three steps, returning the refined argument paired with the id of
the run_tree the decorator injected. -/
def argument_chain2 (query : String)
    (additional_description : String := "") : M (String × Nat) :=
  traceable chainCfg none (fun run_tree =>
    bindM (argument_generator query additional_description) (fun argument =>
      bindM (critic argument) (fun criticism =>
        bindM (refiner query additional_description argument criticism)
          (fun refined_argument =>
            pureM (refined_argument, run_tree.id)))))

/-- argument_chain_3(query, additional_description=""): the same three
steps under the richer decoration; the decorated callable also accepts a
langsmith_extra argument at call time. -/
def argument_chain_3 (query : String)
    (additional_description : String := "")
    (extra : Option LangsmithExtra := none) : M String :=
  traceable chain3Cfg extra (fun _ =>
    bindM (argument_generator query additional_description) (fun argument =>
      bindM (critic argument) (fun criticism =>
        refiner query additional_description argument criticism)))

/-- Modelled from the spec: client.create_feedback of the external
tracing client, not present in this repository. It attaches feedback — a
run identifier, a named key, a numeric score, and optional free-form
correction / source metadata — to the given run id; we record the call. -/
def create_feedback (run_id : Nat) (key : String) (score : Rat)
    (correction : Option (List (String × MetaVal)))
    (source_info : Option (List (String × MetaVal))) : M Unit :=
  fun _ s =>
    (Except.ok (),
     { s with feedbackCalls :=
         s.feedbackCalls ++ [⟨run_id, key, score, correction, source_info⟩] })

/-- Modelled from the spec: client.share_run of the external tracing
client, not present in this repository. It produces a shareable public
link for the given run id; we record the call. -/
def share_run (run_id : Nat) : M String := fun env s =>
  (Except.ok (env.shareUrl run_id),
   { s with shareCalls := s.shareCalls ++ [run_id] })

/-- The notebook cells that call argument_chain2, then attach feedback
with the returned run id (key user_feedback, score 0.5, a correction
mapping), then create a shareable link for that same run id. -/
def cells_chain2_feedback_share (query additional_description : String) :
    M (String × Nat × String) :=
  bindM (argument_chain2 query additional_description) (fun ri =>
    bindM (create_feedback ri.2 "user_feedback" (1 / 2)
        (some [("generation", MetaVal.str "Sunshine is nice. Full stop.")])
        none) (fun _ =>
      bindM (share_run ri.2) (fun shared_link =>
        pureM (ri.1, ri.2, shared_link))))

/-- The notebook cells that draw requested_uuid, call argument_chain_3
with langsmith_extra carrying an extra tag, extra metadata and the
requested run id, then attach feedback directly to requested_uuid. -/
def cells_chain3_feedback (query additional_description : String)
    (requested_uuid : Nat) : M String :=
  bindM (argument_chain_3 query additional_description
      (some ⟨["another-tag"], [("another-key", MetaVal.num 1)],
        some requested_uuid⟩)) (fun result =>
    bindM (create_feedback requested_uuid "user_feedback" 1 none
        (some [("origin", MetaVal.str "example notebook")])) (fun _ =>
      pureM result))

/-- The request call_openai issues for argument_generator's messages with
its default model and temperature. -/
def genReq (query additional_description ts : String) : ChatRequest :=
  ⟨"gpt-3.5-turbo", genMessages query additional_description ts, 0⟩

/-- The request call_openai issues for critic's messages with its default
model and temperature. -/
def criticReq (argument : String) : ChatRequest :=
  ⟨"gpt-3.5-turbo", criticMessages argument, 0⟩

/-- The request call_openai issues for refiner's messages with its default
model and temperature. -/
def refinerReq (query additional_description current_arg criticism
    ts : String) : ChatRequest :=
  ⟨"gpt-3.5-turbo",
   refinerMessages query additional_description current_arg criticism ts, 0⟩

/-- The text completion the environment returns for a request: the content
of the first choice when the call succeeds and has a choice, none
otherwise. -/
def apiOut (env : Env) (req : ChatRequest) : Option String :=
  match env.api req with
  | Except.error _ => none
  | Except.ok resp =>
    match resp.choices with
    | [] => none
    | c :: _ => some c.message.content

/-- The outcome call_openai produces for a request under a given
environment: the API error if the call raised, the IndexError if the
response had no choices, and otherwise the content of the first choice. -/
def callResult (env : Env) (req : ChatRequest) : Except RunError String :=
  match env.api req with
  | Except.error e => Except.error e
  | Except.ok resp =>
    match resp.choices with
    | [] => Except.error RunError.indexError
    | c :: _ => Except.ok c.message.content

/-- The overall outcome of one three-step chain execution started at
clock tick t: the generator outcome, then the critic outcome on the
produced argument, then the refiner outcome, with the first error cutting
the sequence short. -/
def chainOutcome (env : Env) (q d : String) (t : Nat) :
    Except RunError String :=
  match callResult env (genReq q d (env.clock t)) with
  | Except.error e => Except.error e
  | Except.ok a1 =>
    match callResult env (criticReq a1) with
    | Except.error e => Except.error e
    | Except.ok a2 => callResult env (refinerReq q d a1 a2 (env.clock (t + 1)))

/-- The requests one three-step chain execution started at clock tick t
issues, in order: the generator request, then, if it succeeded, the
critic request, then, if that succeeded too, the refiner request. -/
def chainRequests (env : Env) (q d : String) (t : Nat) : List ChatRequest :=
  genReq q d (env.clock t) ::
    (match callResult env (genReq q d (env.clock t)) with
     | Except.error _ => []
     | Except.ok a1 =>
       criticReq a1 ::
         (match callResult env (criticReq a1) with
          | Except.error _ => []
          | Except.ok a2 => [refinerReq q d a1 a2 (env.clock (t + 1))]))

/-- Equality is decidable on Except values with decidable components. -/
instance {ε α : Type} [DecidableEq ε] [DecidableEq α] :
    DecidableEq (Except ε α) := fun a b =>
  match a, b with
  | Except.ok x, Except.ok y =>
    if h : x = y then Decidable.isTrue (by rw [h])
    else Decidable.isFalse (by intro hc; cases hc; exact h rfl)
  | Except.error x, Except.error y =>
    if h : x = y then Decidable.isTrue (by rw [h])
    else Decidable.isFalse (by intro hc; cases hc; exact h rfl)
  | Except.ok _, Except.error _ => Decidable.isFalse (by intro hc; cases hc)
  | Except.error _, Except.ok _ => Decidable.isFalse (by intro hc; cases hc)

/-- A concrete environment for witnesses: the API answers every request
with one choice whose content is the word reply followed by the number of
messages in the request. -/
def env0 : Env :=
  ⟨fun req =>
     Except.ok ⟨[⟨⟨String.append "reply" (Nat.repr req.messages.length)⟩⟩]⟩,
   fun n => Nat.repr n,
   fun n => n + 100,
   fun n => String.append "link" (Nat.repr n)⟩

/-- A concrete environment whose API raises on every request. -/
def envErr1 : Env :=
  ⟨fun _ => Except.error (RunError.apiError "boom"),
   fun n => Nat.repr n, fun n => n, fun _ => "nolink"⟩

/-- A concrete environment whose API raises exactly on the critic request
for the argument produced by the first call, and otherwise answers like
env0. -/
def envErr2 : Env :=
  ⟨fun req =>
     if req.messages = criticMessages "reply2" then
       Except.error (RunError.apiError "boom2")
     else
       Except.ok
         ⟨[⟨⟨String.append "reply" (Nat.repr req.messages.length)⟩⟩]⟩,
   fun n => Nat.repr n, fun n => n, fun _ => "nolink"⟩

/-- A concrete environment whose API raises exactly on five-message
requests, i.e. on the refiner request, and otherwise answers "reply". -/
def envErr3 : Env :=
  ⟨fun req =>
     if req.messages.length = 5 then Except.error (RunError.apiError "boom3")
     else Except.ok ⟨[⟨⟨"reply"⟩⟩]⟩,
   fun n => Nat.repr n, fun n => n, fun _ => "nolink"⟩

/-- The empty starting state. -/
def st0 : St := ⟨0, 0, [], [], [], []⟩

/-- A second concrete environment sharing the API of env0 but with a
different clock, id supply and share-link map. -/
def env0b : Env := ⟨env0.api, fun _ => "other", fun n => n + 500, fun _ => "x"⟩

/-- A nonempty starting state, used to show state independence. -/
def st1 : St := ⟨5, 7, [criticReq "z"], [], [], []⟩

theorem callResult_of_apiOut {env : Env} {req : ChatRequest} {a : String}
    (h : apiOut env req = some a) : callResult env req = Except.ok a := by
  cases hA : env.api req with
  | error e => simp [apiOut, hA] at h
  | ok resp =>
    cases hc : resp.choices with
    | nil => simp [apiOut, hA, hc] at h
    | cons c rest =>
      simp [apiOut, hA, hc] at h
      simp [callResult, hA, hc, h]

theorem callResult_of_err {env : Env} {req : ChatRequest} {e : RunError}
    (h : env.api req = Except.error e) :
    callResult env req = Except.error e := by
  unfold callResult
  rw [h]

theorem call_openai_run (env : Env) (model : String) (data : List Message)
    (temp : Rat) (s : St) :
    call_openai data model temp env s =
      (callResult env ⟨model, data, temp⟩,
       ⟨s.clockTick, s.idTick + 1, s.log ++ [⟨model, data, temp⟩],
        s.runs ++ [⟨env.idSupply s.idTick, "llm", none, [], []⟩],
        s.feedbackCalls, s.shareCalls⟩) := by
  simp only [call_openai, traceable, call_openai_body, llmCfg, callResult]
  cases hA : env.api ⟨model, data, temp⟩ with
  | error e => simp [hA]
  | ok resp =>
    cases hc : resp.choices with
    | nil => simp [hA, hc]
    | cons c rest => simp [hA, hc]

theorem argument_generator_run (env : Env) (q d : String) (s : St) :
    argument_generator q d env s =
      (callResult env (genReq q d (env.clock s.clockTick)),
       ⟨s.clockTick + 1, s.idTick + 2,
        s.log ++ [genReq q d (env.clock s.clockTick)],
        s.runs ++ [⟨env.idSupply s.idTick, "chain", none, [], []⟩,
          ⟨env.idSupply (s.idTick + 1), "llm", none, [], []⟩],
        s.feedbackCalls, s.shareCalls⟩) := by
  simp [argument_generator, traceable, bindM, nowM, chainCfg,
    call_openai_run, genReq]

theorem critic_run (env : Env) (arg : String) (s : St) :
    critic arg env s =
      (callResult env (criticReq arg),
       ⟨s.clockTick, s.idTick + 2, s.log ++ [criticReq arg],
        s.runs ++ [⟨env.idSupply s.idTick, "chain", none, [], []⟩,
          ⟨env.idSupply (s.idTick + 1), "llm", none, [], []⟩],
        s.feedbackCalls, s.shareCalls⟩) := by
  simp [critic, traceable, bindM, chainCfg, call_openai_run, criticReq]

theorem refiner_run (env : Env) (q d arg crit : String) (s : St) :
    refiner q d arg crit env s =
      (callResult env (refinerReq q d arg crit (env.clock s.clockTick)),
       ⟨s.clockTick + 1, s.idTick + 2,
        s.log ++ [refinerReq q d arg crit (env.clock s.clockTick)],
        s.runs ++ [⟨env.idSupply s.idTick, "chain", none, [], []⟩,
          ⟨env.idSupply (s.idTick + 1), "llm", none, [], []⟩],
        s.feedbackCalls, s.shareCalls⟩) := by
  simp [refiner, traceable, bindM, nowM, chainCfg, call_openai_run,
    refinerReq]

theorem argument_chain_ok {env : Env} {q d a1 a2 a3 : String} (s : St)
    (h1 : callResult env (genReq q d (env.clock s.clockTick)) = Except.ok a1)
    (h2 : callResult env (criticReq a1) = Except.ok a2)
    (h3 : callResult env
      (refinerReq q d a1 a2 (env.clock (s.clockTick + 1))) = Except.ok a3) :
    argument_chain q d env s =
      (Except.ok a3,
       ⟨s.clockTick + 2, s.idTick + 7,
        s.log ++ [genReq q d (env.clock s.clockTick), criticReq a1,
          refinerReq q d a1 a2 (env.clock (s.clockTick + 1))],
        s.runs ++ [⟨env.idSupply s.idTick, "chain", none, [], []⟩,
          ⟨env.idSupply (s.idTick + 1), "chain", none, [], []⟩,
          ⟨env.idSupply (s.idTick + 2), "llm", none, [], []⟩,
          ⟨env.idSupply (s.idTick + 3), "chain", none, [], []⟩,
          ⟨env.idSupply (s.idTick + 4), "llm", none, [], []⟩,
          ⟨env.idSupply (s.idTick + 5), "chain", none, [], []⟩,
          ⟨env.idSupply (s.idTick + 6), "llm", none, [], []⟩],
        s.feedbackCalls, s.shareCalls⟩) := by
  simp [argument_chain, traceable, bindM, chainCfg,
    argument_generator_run, critic_run, refiner_run, h1, h2, h3]
theorem argument_chain2_ok {env : Env} {q d a1 a2 a3 : String} (s : St)
    (h1 : callResult env (genReq q d (env.clock s.clockTick)) = Except.ok a1)
    (h2 : callResult env (criticReq a1) = Except.ok a2)
    (h3 : callResult env
      (refinerReq q d a1 a2 (env.clock (s.clockTick + 1))) = Except.ok a3) :
    argument_chain2 q d env s =
      (Except.ok (a3, env.idSupply s.idTick),
       ⟨s.clockTick + 2, s.idTick + 7,
        s.log ++ [genReq q d (env.clock s.clockTick), criticReq a1,
          refinerReq q d a1 a2 (env.clock (s.clockTick + 1))],
        s.runs ++ [⟨env.idSupply s.idTick, "chain", none, [], []⟩,
          ⟨env.idSupply (s.idTick + 1), "chain", none, [], []⟩,
          ⟨env.idSupply (s.idTick + 2), "llm", none, [], []⟩,
          ⟨env.idSupply (s.idTick + 3), "chain", none, [], []⟩,
          ⟨env.idSupply (s.idTick + 4), "llm", none, [], []⟩,
          ⟨env.idSupply (s.idTick + 5), "chain", none, [], []⟩,
          ⟨env.idSupply (s.idTick + 6), "llm", none, [], []⟩],
        s.feedbackCalls, s.shareCalls⟩) := by
  simp [argument_chain2, traceable, bindM, pureM, chainCfg,
    argument_generator_run, critic_run, refiner_run, h1, h2, h3]

theorem argument_chain_3_requested_ok {env : Env} {q d a1 a2 a3 : String}
    {et : List String} {em : List (String × MetaVal)} {u : Nat} (s : St)
    (h1 : callResult env (genReq q d (env.clock s.clockTick)) = Except.ok a1)
    (h2 : callResult env (criticReq a1) = Except.ok a2)
    (h3 : callResult env
      (refinerReq q d a1 a2 (env.clock (s.clockTick + 1))) = Except.ok a3) :
    argument_chain_3 q d (some ⟨et, em, some u⟩) env s =
      (Except.ok a3,
       ⟨s.clockTick + 2, s.idTick + 6,
        s.log ++ [genReq q d (env.clock s.clockTick), criticReq a1,
          refinerReq q d a1 a2 (env.clock (s.clockTick + 1))],
        s.runs ++ [⟨u, "chain", some "My Argument Chain", "tutorial" :: et,
            ("githash", MetaVal.str "e38f04c83") :: em⟩,
          ⟨env.idSupply s.idTick, "chain", none, [], []⟩,
          ⟨env.idSupply (s.idTick + 1), "llm", none, [], []⟩,
          ⟨env.idSupply (s.idTick + 2), "chain", none, [], []⟩,
          ⟨env.idSupply (s.idTick + 3), "llm", none, [], []⟩,
          ⟨env.idSupply (s.idTick + 4), "chain", none, [], []⟩,
          ⟨env.idSupply (s.idTick + 5), "llm", none, [], []⟩],
        s.feedbackCalls, s.shareCalls⟩) := by
  simp [argument_chain_3, traceable, bindM, chain3Cfg,
    argument_generator_run, critic_run, refiner_run, h1, h2, h3]

theorem argument_chain_3_none_ok {env : Env} {q d a1 a2 a3 : String} (s : St)
    (h1 : callResult env (genReq q d (env.clock s.clockTick)) = Except.ok a1)
    (h2 : callResult env (criticReq a1) = Except.ok a2)
    (h3 : callResult env
      (refinerReq q d a1 a2 (env.clock (s.clockTick + 1))) = Except.ok a3) :
    argument_chain_3 q d none env s =
      (Except.ok a3,
       ⟨s.clockTick + 2, s.idTick + 7,
        s.log ++ [genReq q d (env.clock s.clockTick), criticReq a1,
          refinerReq q d a1 a2 (env.clock (s.clockTick + 1))],
        s.runs ++ [⟨env.idSupply s.idTick, "chain", some "My Argument Chain",
            ["tutorial"], [("githash", MetaVal.str "e38f04c83")]⟩,
          ⟨env.idSupply (s.idTick + 1), "chain", none, [], []⟩,
          ⟨env.idSupply (s.idTick + 2), "llm", none, [], []⟩,
          ⟨env.idSupply (s.idTick + 3), "chain", none, [], []⟩,
          ⟨env.idSupply (s.idTick + 4), "llm", none, [], []⟩,
          ⟨env.idSupply (s.idTick + 5), "chain", none, [], []⟩,
          ⟨env.idSupply (s.idTick + 6), "llm", none, [], []⟩],
        s.feedbackCalls, s.shareCalls⟩) := by
  simp [argument_chain_3, traceable, bindM, chain3Cfg,
    argument_generator_run, critic_run, refiner_run, h1, h2, h3]

/-- C1: argument_chain (and likewise argument_chain2 and argument_chain_3)
is a linear call chain: for every query and additional_description it
first issues the argument_generator request, then the critic request on
the argument so produced, then the refiner request on (query,
additional_description, argument, criticism), in that order with no other
request, and returns the refiner result; each of the three requests is
the one the shared call_openai function issues. -/
theorem argument_chain_linear_pipeline
    (env : Env) (s : St) (q d a1 a2 a3 : String)
    (h1 : apiOut env (genReq q d (env.clock s.clockTick)) = some a1)
    (h2 : apiOut env (criticReq a1) = some a2)
    (h3 : apiOut env
      (refinerReq q d a1 a2 (env.clock (s.clockTick + 1))) = some a3) :
    ((argument_chain q d env s).1 = Except.ok a3 ∧
     (argument_chain q d env s).2.log =
       s.log ++ [genReq q d (env.clock s.clockTick), criticReq a1,
         refinerReq q d a1 a2 (env.clock (s.clockTick + 1))]) ∧
    ((argument_chain2 q d env s).1 = Except.ok (a3, env.idSupply s.idTick) ∧
     (argument_chain2 q d env s).2.log =
       s.log ++ [genReq q d (env.clock s.clockTick), criticReq a1,
         refinerReq q d a1 a2 (env.clock (s.clockTick + 1))]) ∧
    ((argument_chain_3 q d none env s).1 = Except.ok a3 ∧
     (argument_chain_3 q d none env s).2.log =
       s.log ++ [genReq q d (env.clock s.clockTick), criticReq a1,
         refinerReq q d a1 a2 (env.clock (s.clockTick + 1))]) := by
  have c1 := callResult_of_apiOut h1
  have c2 := callResult_of_apiOut h2
  have c3 := callResult_of_apiOut h3
  rw [argument_chain_ok s c1 c2 c3, argument_chain2_ok s c1 c2 c3,
    argument_chain_3_none_ok s c1 c2 c3]
  exact ⟨⟨rfl, rfl⟩, ⟨rfl, rfl⟩, ⟨rfl, rfl⟩⟩

theorem argument_chain_linear_pipeline_witness :
    (apiOut env0 (genReq "q" "d" (env0.clock 0)) = some "reply2" ∧
     apiOut env0 (criticReq "reply2") = some "reply2" ∧
     apiOut env0
       (refinerReq "q" "d" "reply2" "reply2" (env0.clock 1)) = some "reply5") ∧
    (argument_chain "q" "d" env0 st0).1 = Except.ok "reply5" ∧
    (argument_chain2 "q" "d" env0 st0).1 = Except.ok ("reply5", 100) ∧
    (argument_chain "q" "d" env0 st0).2.log =
      [genReq "q" "d" "0", criticReq "reply2",
       refinerReq "q" "d" "reply2" "reply2" "1"] :=
  ⟨⟨by decide, by decide, by decide⟩,
   (argument_chain_linear_pipeline env0 st0 "q" "d" "reply2" "reply2" "reply5"
     (by decide) (by decide) (by decide)).1.1,
   ((argument_chain_linear_pipeline env0 st0 "q" "d" "reply2" "reply2" "reply5"
     (by decide) (by decide) (by decide)).2.1).1,
   (argument_chain_linear_pipeline env0 st0 "q" "d" "reply2" "reply2" "reply5"
     (by decide) (by decide) (by decide)).1.2⟩

/-- C2: for every fixed response string returned by the external
chat-completion call, each of argument_generator, critic and refiner
returns exactly that string unchanged. -/
theorem wrappers_pass_through
    (env : Env) (s : St) (q d arg crit a b c : String) :
    (apiOut env (genReq q d (env.clock s.clockTick)) = some a →
      (argument_generator q d env s).1 = Except.ok a) ∧
    (apiOut env (criticReq arg) = some b →
      (critic arg env s).1 = Except.ok b) ∧
    (apiOut env (refinerReq q d arg crit (env.clock s.clockTick)) = some c →
      (refiner q d arg crit env s).1 = Except.ok c) := by
  refine ⟨fun h => ?_, fun h => ?_, fun h => ?_⟩
  · rw [argument_generator_run]
    simpa using callResult_of_apiOut h
  · rw [critic_run]
    simpa using callResult_of_apiOut h
  · rw [refiner_run]
    simpa using callResult_of_apiOut h

theorem wrappers_pass_through_witness :
    (argument_generator "q" "d" env0 st0).1 = Except.ok "reply2" ∧
    (critic "arg" env0 st0).1 = Except.ok "reply2" ∧
    (refiner "q" "d" "arg" "crit" env0 st0).1 = Except.ok "reply5" :=
  ⟨(wrappers_pass_through env0 st0 "q" "d" "arg" "crit" "reply2" "reply2"
      "reply5").1 (by decide),
   (wrappers_pass_through env0 st0 "q" "d" "arg" "crit" "reply2" "reply2"
      "reply5").2.1 (by decide),
   (wrappers_pass_through env0 st0 "q" "d" "arg" "crit" "reply2" "reply2"
      "reply5").2.2 (by decide)⟩
/-- C5: call_openai passes to the external chat-completion API exactly the
ordered message list it was given together with its model and temperature
parameters, and returns the text taken from the message content of the
first choice of the API response. -/
theorem call_openai_request_response
    (env : Env) (s : St) (data : List Message) (model : String) (temp : Rat)
    (resp : ChatResponse) (c : Choice) (rest : List Choice)
    (hok : env.api ⟨model, data, temp⟩ = Except.ok resp)
    (hcs : resp.choices = c :: rest) :
    (call_openai data model temp env s).1 = Except.ok c.message.content ∧
    (call_openai data model temp env s).2.log =
      s.log ++ [⟨model, data, temp⟩] := by
  rw [call_openai_run]
  exact ⟨by simp [callResult, hok, hcs], rfl⟩

theorem call_openai_request_response_witness :
    (call_openai (criticMessages "x") "m4" 7 env0 st0).1 =
      Except.ok "reply2" ∧
    (call_openai (criticMessages "x") "m4" 7 env0 st0).2.log =
      [⟨"m4", criticMessages "x", 7⟩] :=
  call_openai_request_response env0 st0 (criticMessages "x") "m4" 7
    ⟨[⟨⟨"reply2"⟩⟩]⟩ ⟨⟨"reply2"⟩⟩ [] (by decide) (by decide)

/-- C6: every chat message constructed by argument_generator, critic or
refiner has a role drawn from the fixed set of labels system, user and
assistant, and a string content field, for every input. -/
theorem message_roles_closed
    (q d arg crit ts : String) (m : Message)
    (h : m ∈ genMessages q d ts ∨ m ∈ criticMessages arg ∨
      m ∈ refinerMessages q d arg crit ts) :
    m.role = "system" ∨ m.role = "user" ∨ m.role = "assistant" := by
  rcases h with h | h | h
  · simp only [genMessages, List.mem_cons, List.mem_singleton,
      List.not_mem_nil, or_false] at h
    rcases h with h | h <;> simp [h]
  · simp only [criticMessages, List.mem_cons, List.mem_singleton,
      List.not_mem_nil, or_false] at h
    rcases h with h | h <;> simp [h]
  · simp only [refinerMessages, List.mem_cons, List.mem_singleton,
      List.not_mem_nil, or_false] at h
    rcases h with h | h | h | h | h <;> simp [h]

theorem message_roles_closed_witness :
    (⟨"user", "The discussion topic is q"⟩ : Message).role = "system" ∨
    (⟨"user", "The discussion topic is q"⟩ : Message).role = "user" ∨
    (⟨"user", "The discussion topic is q"⟩ : Message).role = "assistant" :=
  message_roles_closed "q" "d" "a" "c" "t" _ (Or.inl (by decide))

/-- C7: each prompt-building function constructs its messages purely by
string interpolation of its inputs: the user message of
argument_generator is exactly the topic prefix followed by the query,
critic embeds the argument verbatim as the content of its second system
message, and refiner embeds current_arg and criticism verbatim as its
assistant and second user message contents; the logged request of each
function carries exactly these message lists. -/
theorem prompt_interpolation_exact
    (env : Env) (s : St) (q d arg crit ts : String) :
    (argument_generator q d env s).2.log =
      s.log ++
        [⟨"gpt-3.5-turbo", genMessages q d (env.clock s.clockTick), 0⟩] ∧
    (genMessages q d ts).get? 1 =
      some ⟨"user", "The discussion topic is " ++ q⟩ ∧
    (critic arg env s).2.log =
      s.log ++ [⟨"gpt-3.5-turbo", criticMessages arg, 0⟩] ∧
    (criticMessages arg).get? 1 = some ⟨"system", arg⟩ ∧
    (refiner q d arg crit env s).2.log =
      s.log ++ [⟨"gpt-3.5-turbo",
        refinerMessages q d arg crit (env.clock s.clockTick), 0⟩] ∧
    (refinerMessages q d arg crit ts).get? 2 = some ⟨"assistant", arg⟩ ∧
    (refinerMessages q d arg crit ts).get? 3 = some ⟨"user", crit⟩ := by
  refine ⟨?_, rfl, ?_, rfl, ?_, rfl, rfl⟩
  · rw [argument_generator_run]
    simp [genReq]
  · rw [critic_run]
    simp [criticReq]
  · rw [refiner_run]
    simp [refinerReq]

/-- C10: the behavior of critic depends only on its argument string: two
invocations in any two environments that answer the critic request the
same way, from any two states, issue exactly the same single request
(the critic message list) and return the same criticism; the original
query and description do not flow into critic. -/
theorem critic_depends_only_on_argument
    (env₁ env₂ : Env) (s₁ s₂ : St) (arg : String)
    (h : env₁.api (criticReq arg) = env₂.api (criticReq arg)) :
    (critic arg env₁ s₁).1 = (critic arg env₂ s₂).1 ∧
    (critic arg env₁ s₁).2.log = s₁.log ++ [criticReq arg] ∧
    (critic arg env₂ s₂).2.log = s₂.log ++ [criticReq arg] := by
  rw [critic_run, critic_run]
  exact ⟨by simp [callResult, h], rfl, rfl⟩

theorem critic_depends_only_on_argument_witness :
    (critic "arg" env0 st0).1 = (critic "arg" env0b st1).1 ∧
    (critic "arg" env0 st0).2.log = [criticReq "arg"] ∧
    (critic "arg" env0b st1).2.log = [criticReq "z", criticReq "arg"] :=
  critic_depends_only_on_argument env0 env0b st0 st1 "arg" rfl

/-- C3: if the external chat-completion call raises an error during
call_openai, argument_generator, critic, refiner or any of the
argument_chain variants, that error propagates unchanged to the caller:
no function catches, translates, retries or recovers from it, whichever
of the three stages of the chain fails. -/
theorem errors_propagate_unchanged
    (env : Env) (s : St) (q d : String) (data : List Message)
    (model : String) (temp : Rat) (a1 a2 : String) (e : RunError) :
    (env.api ⟨model, data, temp⟩ = Except.error e →
      (call_openai data model temp env s).1 = Except.error e) ∧
    (env.api (genReq q d (env.clock s.clockTick)) = Except.error e →
      (argument_generator q d env s).1 = Except.error e) ∧
    (env.api (criticReq a1) = Except.error e →
      (critic a1 env s).1 = Except.error e) ∧
    (env.api (refinerReq q d a1 a2 (env.clock s.clockTick)) =
        Except.error e →
      (refiner q d a1 a2 env s).1 = Except.error e) ∧
    (env.api (genReq q d (env.clock s.clockTick)) = Except.error e →
      (argument_chain q d env s).1 = Except.error e ∧
      (argument_chain2 q d env s).1 = Except.error e ∧
      (argument_chain_3 q d none env s).1 = Except.error e) ∧
    (apiOut env (genReq q d (env.clock s.clockTick)) = some a1 →
      env.api (criticReq a1) = Except.error e →
      (argument_chain q d env s).1 = Except.error e ∧
      (argument_chain2 q d env s).1 = Except.error e ∧
      (argument_chain_3 q d none env s).1 = Except.error e) ∧
    (apiOut env (genReq q d (env.clock s.clockTick)) = some a1 →
      apiOut env (criticReq a1) = some a2 →
      env.api (refinerReq q d a1 a2 (env.clock (s.clockTick + 1))) =
        Except.error e →
      (argument_chain q d env s).1 = Except.error e ∧
      (argument_chain2 q d env s).1 = Except.error e ∧
      (argument_chain_3 q d none env s).1 = Except.error e) := by
  refine ⟨fun h => ?_, fun h => ?_, fun h => ?_, fun h => ?_,
    fun h => ?_, fun h1 h => ?_, fun h1 h2 h => ?_⟩
  · rw [call_openai_run]
    simpa using callResult_of_err h
  · rw [argument_generator_run]
    simpa using callResult_of_err h
  · rw [critic_run]
    simpa using callResult_of_err h
  · rw [refiner_run]
    simpa using callResult_of_err h
  · have hc := callResult_of_err h
    refine ⟨?_, ?_, ?_⟩ <;>
      simp [argument_chain, argument_chain2, argument_chain_3, traceable,
        bindM, pureM, chainCfg, chain3Cfg, argument_generator_run, hc]
  · have c1 := callResult_of_apiOut h1
    have hc := callResult_of_err h
    refine ⟨?_, ?_, ?_⟩ <;>
      simp [argument_chain, argument_chain2, argument_chain_3, traceable,
        bindM, pureM, chainCfg, chain3Cfg, argument_generator_run,
        critic_run, c1, hc]
  · have c1 := callResult_of_apiOut h1
    have c2 := callResult_of_apiOut h2
    have hc := callResult_of_err h
    refine ⟨?_, ?_, ?_⟩ <;>
      simp [argument_chain, argument_chain2, argument_chain_3, traceable,
        bindM, pureM, chainCfg, chain3Cfg, argument_generator_run,
        critic_run, refiner_run, c1, c2, hc]

theorem errors_propagate_unchanged_witness :
    (call_openai (criticMessages "x") "gpt-3.5-turbo" 0 envErr1 st0).1 =
      Except.error (RunError.apiError "boom") ∧
    (argument_chain "q" "d" envErr1 st0).1 =
      Except.error (RunError.apiError "boom") ∧
    (argument_chain "q" "d" envErr2 st0).1 =
      Except.error (RunError.apiError "boom2") ∧
    (argument_chain "q" "d" envErr3 st0).1 =
      Except.error (RunError.apiError "boom3") :=
  ⟨(errors_propagate_unchanged envErr1 st0 "q" "d" (criticMessages "x")
      "gpt-3.5-turbo" 0 "a" "b" (RunError.apiError "boom")).1 (by decide),
   ((errors_propagate_unchanged envErr1 st0 "q" "d" [] "m" 0 "a" "b"
      (RunError.apiError "boom")).2.2.2.2.1 (by decide)).1,
   ((errors_propagate_unchanged envErr2 st0 "q" "d" [] "m" 0 "reply2" "b"
      (RunError.apiError "boom2")).2.2.2.2.2.1 (by decide) (by decide)).1,
   ((errors_propagate_unchanged envErr3 st0 "q" "d" [] "m" 0 "reply" "reply"
      (RunError.apiError "boom3")).2.2.2.2.2.2 (by decide) (by decide)
      (by decide)).1⟩

theorem argument_chain_outcome (env : Env) (s : St) (q d : String) :
    (argument_chain q d env s).1 = chainOutcome env q d s.clockTick ∧
    (argument_chain q d env s).2.log =
      s.log ++ chainRequests env q d s.clockTick := by
  rcases hA1 : callResult env (genReq q d (env.clock s.clockTick)) with e | a1
  · constructor <;>
      simp [argument_chain, traceable, bindM, chainCfg, chainOutcome,
        chainRequests, argument_generator_run, hA1]
  · rcases hA2 : callResult env (criticReq a1) with e | a2
    · constructor <;>
        simp [argument_chain, traceable, bindM, chainCfg, chainOutcome,
          chainRequests, argument_generator_run, critic_run, hA1, hA2]
    · constructor <;>
        simp [argument_chain, traceable, bindM, chainCfg, chainOutcome,
          chainRequests, argument_generator_run, critic_run, refiner_run,
          hA1, hA2]

theorem argument_chain2_outcome (env : Env) (s : St) (q d : String) :
    (argument_chain2 q d env s).1 =
      (chainOutcome env q d s.clockTick).map
        (fun a => (a, env.idSupply s.idTick)) ∧
    (argument_chain2 q d env s).2.log =
      s.log ++ chainRequests env q d s.clockTick := by
  rcases hA1 : callResult env (genReq q d (env.clock s.clockTick)) with e | a1
  · constructor <;>
      simp [argument_chain2, traceable, bindM, pureM, chainCfg, chainOutcome,
        chainRequests, argument_generator_run, Except.map, hA1]
  · rcases hA2 : callResult env (criticReq a1) with e | a2
    · constructor <;>
        simp [argument_chain2, traceable, bindM, pureM, chainCfg,
          chainOutcome, chainRequests, argument_generator_run, critic_run,
          Except.map, hA1, hA2]
    · rcases hA3 : callResult env
        (refinerReq q d a1 a2 (env.clock (s.clockTick + 1))) with e | a3 <;>
        constructor <;>
          simp [argument_chain2, traceable, bindM, pureM, chainCfg,
            chainOutcome, chainRequests, argument_generator_run, critic_run,
            refiner_run, Except.map, hA1, hA2, hA3]

theorem argument_chain_3_outcome (env : Env) (s : St) (q d : String)
    (extra : Option LangsmithExtra) :
    (argument_chain_3 q d extra env s).1 = chainOutcome env q d s.clockTick ∧
    (argument_chain_3 q d extra env s).2.log =
      s.log ++ chainRequests env q d s.clockTick := by
  rcases extra with _ | ⟨et, em, _ | u⟩ <;>
    (rcases hA1 : callResult env (genReq q d (env.clock s.clockTick))
        with e | a1
     · constructor <;>
         simp [argument_chain_3, traceable, bindM, chain3Cfg, chainOutcome,
           chainRequests, argument_generator_run, hA1]
     · rcases hA2 : callResult env (criticReq a1) with e | a2
       · constructor <;>
           simp [argument_chain_3, traceable, bindM, chain3Cfg, chainOutcome,
             chainRequests, argument_generator_run, critic_run, hA1, hA2]
       · constructor <;>
           simp [argument_chain_3, traceable, bindM, chain3Cfg, chainOutcome,
             chainRequests, argument_generator_run, critic_run, refiner_run,
             hA1, hA2])

theorem chainRequests_default_params (env : Env) (q d : String) (t : Nat)
    (req : ChatRequest) (h : req ∈ chainRequests env q d t) :
    req.model = "gpt-3.5-turbo" ∧ req.temperature = 0 := by
  unfold chainRequests at h
  cases h with
  | head => exact ⟨rfl, rfl⟩
  | tail _ h =>
    rcases hA1 : callResult env (genReq q d (env.clock t)) with e | a1 <;>
      rw [hA1] at h
    · cases h
    · cases h with
      | head => exact ⟨rfl, rfl⟩
      | tail _ h =>
        rcases hA2 : callResult env (criticReq a1) with e | a2 <;>
          rw [hA2] at h
        · cases h
        · cases h with
          | head => exact ⟨rfl, rfl⟩
          | tail _ h => cases h

/-- C8: argument_chain, the first component of the result of
argument_chain2, and argument_chain_3 are extensionally equal: for every
query and additional_description and every behavior of the external
chat-completion call, all three produce the same refined-argument outcome
and issue the same requests; they differ only in tracing decoration and
in whether the run id is additionally returned. -/
theorem chain_variants_extensionally_equal
    (env : Env) (s : St) (q d : String) (extra : Option LangsmithExtra) :
    ((argument_chain2 q d env s).1.map Prod.fst =
      (argument_chain q d env s).1 ∧
     (argument_chain_3 q d extra env s).1 = (argument_chain q d env s).1) ∧
    ((argument_chain2 q d env s).2.log = (argument_chain q d env s).2.log ∧
     (argument_chain_3 q d extra env s).2.log =
       (argument_chain q d env s).2.log) := by
  refine ⟨⟨?_, ?_⟩, ?_, ?_⟩
  · rw [(argument_chain2_outcome env s q d).1,
      (argument_chain_outcome env s q d).1]
    cases chainOutcome env q d s.clockTick <;> rfl
  · rw [(argument_chain_3_outcome env s q d extra).1,
      (argument_chain_outcome env s q d).1]
  · rw [(argument_chain2_outcome env s q d).2,
      (argument_chain_outcome env s q d).2]
  · rw [(argument_chain_3_outcome env s q d extra).2,
      (argument_chain_outcome env s q d).2]

/-- C9: no call site of call_openai ever overrides model or temperature,
so every chat-completion request issued by any chain variant that is not
already in the starting log carries model gpt-3.5-turbo and temperature
0.0. -/
theorem all_calls_use_default_params
    (env : Env) (s : St) (q d : String) (extra : Option LangsmithExtra)
    (req : ChatRequest)
    (h : req ∈ (argument_chain q d env s).2.log ∨
      req ∈ (argument_chain2 q d env s).2.log ∨
      req ∈ (argument_chain_3 q d extra env s).2.log) :
    req ∈ s.log ∨
      (req.model = "gpt-3.5-turbo" ∧ req.temperature = 0) := by
  rcases h with h | h | h
  · rw [(argument_chain_outcome env s q d).2] at h
    rcases List.mem_append.1 h with h | h
    · exact Or.inl h
    · exact Or.inr (chainRequests_default_params env q d s.clockTick req h)
  · rw [(argument_chain2_outcome env s q d).2] at h
    rcases List.mem_append.1 h with h | h
    · exact Or.inl h
    · exact Or.inr (chainRequests_default_params env q d s.clockTick req h)
  · rw [(argument_chain_3_outcome env s q d extra).2] at h
    rcases List.mem_append.1 h with h | h
    · exact Or.inl h
    · exact Or.inr (chainRequests_default_params env q d s.clockTick req h)

theorem all_calls_use_default_params_witness :
    genReq "q" "d" "0" ∈ st0.log ∨
      ((genReq "q" "d" "0").model = "gpt-3.5-turbo" ∧
       (genReq "q" "d" "0").temperature = 0) :=
  all_calls_use_default_params env0 st0 "q" "d" none (genReq "q" "d" "0")
    (Or.inl (by decide))

/-- C4: the run identifier is stable once issued: argument_chain2 returns,
as the second component of its result pair, exactly the id of the
run_tree the decorator injected (the id of its own recorded run), and
that same identifier — or the caller-supplied requested uuid passed via
langsmith_extra — is the value the notebook cells later hand to the
feedback-attachment and public-link operations. -/
theorem run_id_stable_and_reused
    (env : Env) (s : St) (q d a1 a2 a3 : String) (u : Nat)
    (h1 : apiOut env (genReq q d (env.clock s.clockTick)) = some a1)
    (h2 : apiOut env (criticReq a1) = some a2)
    (h3 : apiOut env
      (refinerReq q d a1 a2 (env.clock (s.clockTick + 1))) = some a3) :
    (argument_chain2 q d env s).1 = Except.ok (a3, env.idSupply s.idTick) ∧
    ((argument_chain2 q d env s).2.runs.drop s.runs.length).head? =
      some ⟨env.idSupply s.idTick, "chain", none, [], []⟩ ∧
    (cells_chain2_feedback_share q d env s).2.feedbackCalls =
      s.feedbackCalls ++ [⟨env.idSupply s.idTick, "user_feedback", 1 / 2,
        some [("generation", MetaVal.str "Sunshine is nice. Full stop.")],
        none⟩] ∧
    (cells_chain2_feedback_share q d env s).2.shareCalls =
      s.shareCalls ++ [env.idSupply s.idTick] ∧
    ((cells_chain3_feedback q d u env s).2.runs.drop s.runs.length).head? =
      some ⟨u, "chain", some "My Argument Chain",
        ["tutorial", "another-tag"],
        [("githash", MetaVal.str "e38f04c83"),
         ("another-key", MetaVal.num 1)]⟩ ∧
    (cells_chain3_feedback q d u env s).2.feedbackCalls =
      s.feedbackCalls ++ [⟨u, "user_feedback", 1, none,
        some [("origin", MetaVal.str "example notebook")]⟩] := by
  have c1 := callResult_of_apiOut h1
  have c2 := callResult_of_apiOut h2
  have c3 := callResult_of_apiOut h3
  refine ⟨?_, ?_, ?_, ?_, ?_, ?_⟩
  · rw [argument_chain2_ok s c1 c2 c3]
  · rw [argument_chain2_ok s c1 c2 c3]
    simp [List.drop_left]
  · simp [cells_chain2_feedback_share, bindM, pureM, create_feedback,
      share_run, argument_chain2_ok s c1 c2 c3]
  · simp [cells_chain2_feedback_share, bindM, pureM, create_feedback,
      share_run, argument_chain2_ok s c1 c2 c3]
  · simp only [cells_chain3_feedback, bindM, pureM,
      argument_chain_3_requested_ok s c1 c2 c3, create_feedback]
    simp [List.drop_left]
  · simp [cells_chain3_feedback, bindM, pureM, create_feedback,
      argument_chain_3_requested_ok s c1 c2 c3]

theorem run_id_stable_and_reused_witness :
    (argument_chain2 "q" "d" env0 st0).1 = Except.ok ("reply5", 100) ∧
    ((argument_chain2 "q" "d" env0 st0).2.runs.drop 0).head? =
      some ⟨100, "chain", none, [], []⟩ ∧
    (cells_chain2_feedback_share "q" "d" env0 st0).2.feedbackCalls =
      [⟨100, "user_feedback", 1 / 2,
        some [("generation", MetaVal.str "Sunshine is nice. Full stop.")],
        none⟩] ∧
    (cells_chain2_feedback_share "q" "d" env0 st0).2.shareCalls = [100] ∧
    ((cells_chain3_feedback "q" "d" 42 env0 st0).2.runs.drop 0).head? =
      some ⟨42, "chain", some "My Argument Chain",
        ["tutorial", "another-tag"],
        [("githash", MetaVal.str "e38f04c83"),
         ("another-key", MetaVal.num 1)]⟩ ∧
    (cells_chain3_feedback "q" "d" 42 env0 st0).2.feedbackCalls =
      [⟨42, "user_feedback", 1, none,
        some [("origin", MetaVal.str "example notebook")]⟩] :=
  run_id_stable_and_reused env0 st0 "q" "d" "reply2" "reply2" "reply5" 42
    (by decide) (by decide) (by decide)

end TracingNotebook
